import Mathlib

/-!
Shallow embedding of the check framework from
`roles/openshift_health_checker/openshift_checks/__init__.py` and
`roles/openshift_health_checker/openshift_checks/mixins.py`
of the openshift-ansible repository, together with theorems settling the
spec claims about it.

Python data is modelled by the `Value` inductive; Python exceptions by
`PyError` (tracking the exception class and, for `OpenShiftCheckException`,
its `name` field); fallible functions return `Except PyError`.
-/

/-- Python values as they occur in ansible `task_vars`: `None`, booleans,
integers, strings, lists and string-keyed dicts (dict entries are an
association list; real Python dicts have unique keys and lookups take the
single binding, which association-list `find?` reproduces). -/
inductive Value where
  | none
  | bool (b : Bool)
  | int (n : Int)
  | str (s : String)
  | list (xs : List Value)
  | dict (entries : List (String × Value))

/-- Python truthiness of a `Value` (`bool(v)`): `None`, `False`, `0`, `""`,
`[]` and `\x7b\x7d` are falsy, everything else truthy. -/
def pyTruthy : Value → Bool
  | Value.none => false
  | Value.bool b => b
  | Value.int n => n != 0
  | Value.str s => s != ""
  | Value.list xs => !xs.isEmpty
  | Value.dict es => !es.isEmpty

mutual
/-- Python `repr()` rendering of a `Value`. Escaping of special characters
inside string literals is not modelled; the claims only render scalars. -/
def pyRepr : Value → String
  | Value.none => "None"
  | Value.bool b => if b then "True" else "False"
  | Value.int n => toString n
  | Value.str s => "'" ++ s ++ "'"
  | Value.list xs => "[" ++ String.intercalate ", " (pyReprList xs) ++ "]"
  | Value.dict es => "\x7b" ++ String.intercalate ", " (pyReprEntries es) ++ "\x7d"

/-- `repr` of each element of a Python list. -/
def pyReprList : List Value → List String
  | [] => []
  | v :: vs => pyRepr v :: pyReprList vs

/-- `repr` of each `key: value` entry of a Python dict. -/
def pyReprEntries : List (String × Value) → List String
  | [] => []
  | (k, v) :: es => ("'" ++ k ++ "': " ++ pyRepr v) :: pyReprEntries es
end

/-- Python `str()` of a `Value`: identical to `repr()` except on strings,
which render as themselves. -/
def pyStr : Value → String
  | Value.str s => s
  | v => pyRepr v

/-- Python exceptions raised by the embedded code.
`checkExc name msg` is `OpenShiftCheckException`: `name` is its
machine-readable `name` attribute ("for test code to identify the error
without looking at msg text"), `msg` the user-facing message. When the
source raises it with a single positional argument, `name` defaults to the
class name `"OpenShiftCheckException"` (see `__init__`, lines 19-26). -/
inductive PyError where
  | checkExc (name msg : String)
  | notImplementedError (msg : String)
  | valueError (msg : String)

/-- Outcome of calling a user-supplied `convert` function on a value:
it may return a value, raise `ValueError`, raise `OpenShiftCheckException`
(with a `name` and a message), or raise any other exception (a bug). -/
inductive ConvOutcome where
  | ok (v : Value)
  | valueError (msg : String)
  | checkExc (name msg : String)
  | otherExc (msg : String)

/-- The `convert` keyword argument of `get_var`: absent (`None`), the
builtin `bool` (special-cased to `ansible_to_bool`), or any other
function. -/
inductive Convert where
  | none
  | bool
  | custom (f : Value → ConvOutcome)

/-- ASCII lowercasing of one character (Python `str.lower` restricted to
ASCII, which covers every string the checks compare). -/
def asciiLowerChar (c : Char) : Char :=
  if 'A' ≤ c ∧ c ≤ 'Z' then Char.ofNat (c.toNat + 32) else c

/-- ASCII lowercasing of a string. -/
def lowerStr (s : String) : String := String.mk (s.data.map asciiLowerChar)

/-- Modelled from the spec: `ansible.plugins.filter.core.to_bool`
(imported as `ansible_to_bool`) is a dependency not present under `src/`.
Per the spec it interprets values with a conventional truthy/falsy parsing
rule: the strings "yes"/"true"/"on"/"1" (case-insensitively) are true,
strings such as "no"/"false"/"off"/"0" — and any other non-truthy string —
are false, native booleans pass through unchanged, the integer 1 is true.
`None` passes through (the spec does not constrain it). -/
def ansible_to_bool : Value → Value
  | Value.bool b => Value.bool b
  | Value.none => Value.none
  | Value.str s => Value.bool (["yes", "true", "on", "1"].contains (lowerStr s))
  | Value.int n => Value.bool (n == 1)
  | _ => Value.bool false

/-- Python `str.split(".")` on the character list of a string: at least one
component always results, and empty components are kept. -/
def pySplitDot : List Char → List (List Char)
  | [] => [[]]
  | c :: cs =>
    let r := pySplitDot cs
    if c = '.' then [] :: r
    else
      match r with
      | h :: t => (c :: h) :: t
      | [] => [[c]]

/-- `String`-level wrapper of `pySplitDot`. -/
def pySplit (s : String) : List String :=
  (pySplitDot s.data).map (fun l => String.mk l)

/-- `get_var` lines 135-136: a single positional key is split on ".";
any other number of keys is used verbatim. -/
def effectiveKeys : List String → List String
  | [k] => pySplit k
  | ks => ks

/-- One step of `operator.getitem` under the `except (KeyError, TypeError)`
handler of `get_var`: indexing a dict with a missing key raises `KeyError`,
indexing any non-dict value with a string key raises `TypeError`; both are
caught, which `Option.none` models. -/
def lookupStep (v : Value) (k : String) : Option Value :=
  match v with
  | Value.dict es => (es.find? (fun e => e.1 == k)).map (·.2)
  | _ => Option.none

/-- `reduce(operator.getitem, keys, task_vars)` under the caught-exception
model: fold `lookupStep` over the keys. -/
def lookupPath (task_vars : Value) (ks : List String) : Option Value :=
  ks.foldlM (fun acc k => lookupStep acc k) task_vars

/-- `".".join(keys)` (the keys are strings, so `map(str, keys)` is the
identity). -/
def dotted (ks : List String) : String := String.intercalate "." ks

/-- The message of the missing-variable `OpenShiftCheckException`
(`get_var` lines 142-147). -/
def configMissingMsg (path : String) : String :=
  "This check expects the '" ++ path ++ "' inventory variable to be defined\n" ++
  "in order to proceed, but it is undefined. There may be a bug\n" ++
  "in Ansible, the checks, or their dependencies."

/-- The message wrapping a converter `ValueError` (`get_var` lines 159-164). -/
def convertErrorMsg (var value error : String) : String :=
  "Cannot convert inventory variable to expected type:\n" ++
  "  \"" ++ var ++ "=" ++ value ++ "\"\n" ++ error

/-- The message wrapping an unexpected converter exception
(`get_var` lines 169-175). -/
def converterBugMsg (var value error : String) : String :=
  "There is a bug in this check. While trying to convert variable \n" ++
  "  \"" ++ var ++ "=" ++ value ++ "\"\n" ++
  "the given converter cannot be used or failed unexpectedly:\n" ++ error

/-- The convert stage of `get_var` (lines 150-175): `convert=None` returns
the value unchanged, `convert=bool` applies `ansible_to_bool`, any other
function is called and its failures are wrapped — `ValueError` into a
user-error `OpenShiftCheckException`, `OpenShiftCheckException` re-raised
as-is, any other exception into a bug-report `OpenShiftCheckException`. -/
def applyConvert (var : String) (value : Value) : Convert → Except PyError Value
  | Convert.none => Except.ok value
  | Convert.bool => Except.ok (ansible_to_bool value)
  | Convert.custom f =>
    match f value with
    | ConvOutcome.ok v => Except.ok v
    | ConvOutcome.valueError e =>
      Except.error (PyError.checkExc "OpenShiftCheckException"
        (convertErrorMsg var (pyStr value) e))
    | ConvOutcome.checkExc n m => Except.error (PyError.checkExc n m)
    | ConvOutcome.otherExc e =>
      Except.error (PyError.checkExc "OpenShiftCheckException"
        (converterBugMsg var (pyStr value) e))

/-- `OpenShiftCheck.get_var` (lines 118-175): resolve a nested value from
`task_vars`, falling back to `default` when the path is absent, then apply
the convert stage. -/
def get_var (task_vars : Value) (keys : List String) (default : Option Value)
    (convert : Convert) : Except PyError Value :=
  let ks := effectiveKeys keys
  match lookupPath task_vars ks with
  | some v => applyConvert (dotted ks) v convert
  | Option.none =>
    match default with
    | Option.none =>
      Except.error (PyError.checkExc "OpenShiftCheckException"
        (configMissingMsg (dotted ks)))
    | some d => applyConvert (dotted ks) d convert

/-- `get_major_minor_version` lines 180-181: strip one leading `'v'` if the
tag is nonempty and starts with it. -/
def stripV : List Char → List Char
  | 'v' :: cs => cs
  | cs => cs

/-- The message of the invalid-version `OpenShiftCheckException`
(lines 191-192); it renders the tag after the `'v'` strip, since the source
reassigns `openshift_image_tag` at line 181. -/
def invalidVersionMsg (t : List Char) : String :=
  "An invalid version of OpenShift was found for this host: " ++ String.mk t

/-- Value of a nonempty string of decimal digits. -/
def digitsToNat (ds : List Char) : Nat :=
  ds.foldl (fun a c => a * 10 + (c.toNat - '0'.toNat)) 0

/-- Python `int()` applied to a string, restricted to what version
components can be: surrounding whitespace is stripped, an optional single
sign precedes a nonempty run of decimal digits, anything else raises
`ValueError`. (Pythonic digit-group underscores are not modelled.) -/
def pyIntCore (cs : List Char) : Option Int :=
  let t := ((cs.dropWhile Char.isWhitespace).reverse.dropWhile Char.isWhitespace).reverse
  match t with
  | '-' :: ds =>
    if ds ≠ [] ∧ ds.all Char.isDigit then some (-(digitsToNat ds : Int)) else Option.none
  | '+' :: ds =>
    if ds ≠ [] ∧ ds.all Char.isDigit then some (digitsToNat ds : Int) else Option.none
  | ds =>
    if ds ≠ [] ∧ ds.all Char.isDigit then some (digitsToNat ds : Int) else Option.none

/-- Python `int()` as an exception-raising operation. -/
def pyInt (cs : List Char) : Except PyError Int :=
  match pyIntCore cs with
  | some n => Except.ok n
  | Option.none =>
    Except.error (PyError.valueError
      ("invalid literal for int() with base 10: '" ++ String.mk cs ++ "'"))

/-- Lines 189-198 after the split: fewer than two components raise the
invalid-version `OpenShiftCheckException` (the split never yields zero
components, so `not components` is never taken); the alias table
`\x7b"1": "3"\x7d` rewrites the first component only; the first two
components are parsed with `int()` (whose `ValueError` propagates
unhandled) and any further components are ignored. -/
def versionComponents (t : List Char) : List (List Char) → Except PyError (Int × Int)
  | c1 :: c2 :: _ =>
    let c1 := if c1 = ['1'] then ['3'] else c1
    do
      let a ← pyInt c1
      let b ← pyInt c2
      pure (a, b)
  | _ => Except.error (PyError.checkExc "OpenShiftCheckException" (invalidVersionMsg t))

/-- `OpenShiftCheck.get_major_minor_version` (lines 177-198). -/
def get_major_minor_version (openshift_image_tag : String) : Except PyError (Int × Int) :=
  let t := stripV openshift_image_tag.data
  versionComponents t (pySplitDot t)


/-- `os.path.dirname` (posixpath): take the prefix up to and including the
last `'/'`; if that head is nonempty and not all slashes, strip its
trailing slashes. -/
def dirname (p : List Char) : List Char :=
  let i := match p.reverse.findIdx? (· = '/') with
           | some r => p.length - r
           | Option.none => 0
  let head := p.take i
  if head ≠ [] ∧ ¬ (head.all (· = '/')) then (head.reverse.dropWhile (· = '/')).reverse
  else head

/-- `os.path.dirname` on `String`. -/
def dirnameS (s : String) : String := String.mk (dirname s.data)


/-- One entry of the `ansible_mounts` table: a dict carrying its `mount`
path; `info` stands for the remaining fields of the dict, so distinct
records can be told apart. -/
structure MountRecord where
  mount : String
  info : Value

/-- `find_ansible_mount` line 211: the mount-point set, with the sentinels
`"/"` and `""` added (membership in the Python `set` equals membership in
this list). -/
def mountTargets (mounts : List MountRecord) : List String :=
  mounts.map (·.mount) ++ ["/", ""]

/-- The `while mount_point not in mount_targets` loop of lines 212-214,
with explicit fuel: each step replaces the point by its `dirname`.
`Option.none` means the loop did not exit within `fuel` steps. -/
def walk (targets : List String) : Nat → String → Option String
  | 0, p => if p ∈ targets then some p else Option.none
  | fuel + 1, p => if p ∈ targets then some p else walk targets fuel (dirnameS p)

/-- Code-point comparison of strings (Python string `<`), as a Bool. -/
def strLeChars : List Char → List Char → Bool
  | [], _ => true
  | _ :: _, [] => false
  | a :: as, b :: bs => if a < b then true else if b < a then false else strLeChars as bs

/-- Insert into a sorted list of strings. -/
def insertStr (x : String) : List String → List String
  | [] => [x]
  | y :: ys => if strLeChars x.data y.data then x :: y :: ys else y :: insertStr x ys

/-- Python `sorted` on strings (insertion sort; stability is irrelevant
because dict keys are distinct). -/
def sortStrs : List String → List String
  | [] => []
  | x :: xs => insertStr x (sortStrs xs)

/-- The message of the unresolved-mount `OpenShiftCheckException`
(lines 219-223): the known mount points — the keys of the dict built from
the table — sorted, each quoted, comma-joined, with `'none'` replacing an
empty join. -/
def mountErrMsg (path : String) (mounts : List MountRecord) : String :=
  let keys := sortStrs ((mounts.map (·.mount)).dedup)
  let known := String.intercalate ", " (keys.map (fun k => "\"" ++ k ++ "\""))
  let known := if known = "" then "none" else known
  "Unable to determine mount point for path \"" ++ path ++ "\".\n" ++
  "Known mount points: " ++ known ++ "."

/-- `OpenShiftCheck.find_ansible_mount` (lines 200-223) over an extracted
mounts table. The dict comprehension keyed by `mount` resolves duplicate
keys last-wins, which `reverse.find?` reproduces. The result is wrapped in
`Option`: `Option.none` models the `while` loop never exiting, and the
fuel `path.length + 1` is enough because `dirname` strictly shortens its
argument except at its fixpoints (`""` and all-slash strings), so a loop
that ever exits does so within `path.length` steps. The final dict lookup
(lines 216-223) is split out as `lookupMount`: the dict comprehension
keyed by `mount` resolves duplicate keys last-wins, which `reverse.find?`
reproduces, and a miss raises the unresolved-mount failure. -/
def lookupMount (mounts : List MountRecord) (path m : String) :
    Except PyError MountRecord :=
  match mounts.reverse.find? (fun r => r.mount == m) with
  | some r => Except.ok r
  | Option.none =>
    Except.error (PyError.checkExc "OpenShiftCheckException" (mountErrMsg path mounts))

def find_ansible_mount (mounts : List MountRecord) (path : String) :
    Option (Except PyError MountRecord) :=
  (walk (mountTargets mounts) (path.length + 1) path).map (lookupMount mounts path)

/-- The state an `OpenShiftCheck` instance holds (`__init__`, lines 56-62),
plus the concrete class's name (`self.__class__.__name__`). The injected
`_execute_module` capability takes `(module_name, module_args, tmp,
task_vars)` and returns a result of type `α` (an opaque result hash for
plain checks, a typed result mapping for `ensure_dependencies`). -/
structure OpenShiftCheck (α : Type) where
  className : String
  _execute_module : Option (Value → Value → Value → Value → α)
  task_vars : Value
  tmp : Value
  changed : Bool

/-- The constructor `__init__` (lines 56-62): `task_vars or \x7b\x7d` keeps
a truthy value and replaces a falsy one (in particular `None`, the default)
by the empty dict; `tmp` is stored as given; `changed` starts false. -/
def mkOpenShiftCheck (α : Type) (className : String)
    (execModule : Option (Value → Value → Value → Value → α))
    (task_vars tmp : Value) : OpenShiftCheck α :=
  { className := className
    _execute_module := execModule
    task_vars := if pyTruthy task_vars then task_vars else Value.dict []
    tmp := tmp
    changed := false }

/-- `OpenShiftCheck.execute_module` (lines 97-116): raise
`NotImplementedError` naming the concrete class when no capability was
injected, otherwise delegate to it with the stored `tmp` and `task_vars`. -/
def execute_module {α : Type} (check : OpenShiftCheck α)
    (module_name module_args : Value) : Except PyError α :=
  match check._execute_module with
  | Option.none =>
    Except.error (PyError.notImplementedError
      (check.className ++ " invoked execute_module without providing the method at initialization."))
  | some f => Except.ok (f module_name module_args check.tmp check.task_vars)

/-- The result mapping the operation-execution capability returns to
`ensure_dependencies`, typed as the spec's external-interface contract
types it (msg: string, failed: boolean, rc: integer, changed: boolean,
each optional); `result.get(key, d)` is `Option.getD`. -/
structure ModuleResult where
  msg : Option String
  failed : Option Bool
  rc : Option Int
  changed : Option Bool

/-- The result-inspection half of `DockerHostMixin.ensure_dependencies`
(mixins.py lines 43-53): read `msg` (default `""`); when the `failed` flag
is truthy, replace a message containing "No package matching" by the yum
hint and wrap it in the unable-to-install text listing the dependencies;
the returned failed flag is `failed or rc != 0` and changed is passed
through. -/
def ensure_dependencies_result (dependencies : List String) (result : ModuleResult) :
    String × Bool × Bool :=
  let msg := result.msg.getD ""
  let msg :=
    if result.failed.getD false then
      let msg :=
        if (decide ("No package matching".data <:+: msg.data)) then
          "Ensure that all required dependencies can be installed via `yum`.\n"
        else msg
      "Unable to install required packages on this host:\n    " ++
        String.intercalate ",\n    " dependencies ++ "\n" ++ msg
    else msg
  (msg, result.failed.getD false || result.rc.getD 0 != 0, result.changed.getD false)

/-- `DockerHostMixin.ensure_dependencies` (mixins.py lines 28-53): return
the no-op triple on atomic hosts, otherwise invoke the package-manager
module (`ansible_pkg_mgr`, default `"yum"`) through `execute_module` and
inspect the result. -/
def ensure_dependencies (dependencies : List String)
    (check : OpenShiftCheck ModuleResult) : Except PyError (String × Bool × Bool) := do
  let isAtomic ← get_var check.task_vars ["openshift", "common", "is_atomic"]
    Option.none Convert.none
  if pyTruthy isAtomic then
    return ("", false, false)
  let pkgMgr ← get_var check.task_vars ["ansible_pkg_mgr"]
    (some (Value.str "yum")) Convert.none
  let result ← execute_module check pkgMgr
    (Value.dict [("name", Value.list (dependencies.map Value.str)),
                 ("state", Value.str "present")])
  return ensure_dependencies_result dependencies result

/-- One Python class in the check hierarchy: its identity and the ids of
its direct base classes. Ids are assigned in class-creation order, so every
base of a class has a smaller id than the class itself, and distinct
classes have distinct ids. -/
structure ClassDef where
  id : Nat
  bases : List Nat

/-- `cls.__subclasses__()`: the classes listing `c` among their direct
bases, in registration order. -/
def directSubs (g : List ClassDef) (c : Nat) : List Nat :=
  (g.filter (fun d => d.bases.contains c)).map (·.id)

/-- The recursion of `OpenShiftCheck.subclasses` (lines 88-95): yield each
direct subclass followed by its own `subclasses()`, with explicit fuel for
the recursion depth. -/
def subsAux (g : List ClassDef) : Nat → Nat → List Nat
  | 0, _ => []
  | n + 1, c => (directSubs g c).flatMap (fun s => s :: subsAux g n s)

/-- The largest class id in the registry. -/
def maxId (g : List ClassDef) : Nat := (g.map (·.id)).foldr max 0

/-- `OpenShiftCheck.subclasses` (lines 88-95) as the list of yielded
classes. The fuel `maxId g + 1` is enough for any registry in which bases
precede their subclasses, because ids strictly increase along a descent. -/
def subclasses (g : List ClassDef) (c : Nat) : List Nat :=
  subsAux g (maxId g + 1) c

/-- Number of inheritance paths of length ≥ 1 from `c` down to `x` (with
the same fuel convention as `subsAux`): each path starts with one direct
subclass `s` and continues with a path from `s`, the empty continuation
counting when `s = x`. -/
def pathCountAux (g : List ClassDef) : Nat → Nat → Nat → Nat
  | 0, _, _ => 0
  | n + 1, c, x =>
    ((directSubs g c).map (fun s => (if s = x then 1 else 0) + pathCountAux g n s x)).sum

/-- Number of inheritance paths from `c` down to `x`. -/
def pathCount (g : List ClassDef) (c x : Nat) : Nat :=
  pathCountAux g (maxId g + 1) c x

/-- `x` is a transitive specialization of `c`: reachable through one or
more direct-subclass steps. -/
inductive TransSub (g : List ClassDef) : Nat → Nat → Prop where
  | direct (c s : Nat) : s ∈ directSubs g c → TransSub g c s
  | step (c s x : Nat) : s ∈ directSubs g c → TransSub g s x → TransSub g c x

/-- Registries whose classes were created bases-first: every base id is
smaller than the id of the class declaring it (always true of a Python
class hierarchy). -/
def BasesBelow (g : List ClassDef) : Prop :=
  ∀ d ∈ g, ∀ b ∈ d.bases, b < d.id

/-- The Python class of an exception value (`type(e).__name__`), the
coarsest machine-distinguishable kind of a raised failure. -/
def pyErrorClass : PyError → String
  | PyError.checkExc _ _ => "OpenShiftCheckException"
  | PyError.notImplementedError _ => "NotImplementedError"
  | PyError.valueError _ => "ValueError"

/-- The `name` attribute of the `OpenShiftCheckException` a computation
raised, if it raised one: the field the source reserves "for test code to
identify the error without looking at msg text". -/
def errKind {α : Type} : Except PyError α → Option String
  | Except.error (PyError.checkExc n _) => some n
  | _ => Option.none

/-- The message of the `OpenShiftCheckException` a computation raised,
if it raised one. -/
def errMsg {α : Type} : Except PyError α → Option String
  | Except.error (PyError.checkExc _ m) => some m
  | _ => Option.none

/-- Whether a string starts with "Cannot", separating the two converter
failure messages of `get_var` by their fixed prefixes. -/
def startsCannot (s : String) : Bool := s.data.take 6 == "Cannot".data

/-- A converter that rejects its input for validation reasons, raising
`ValueError` (like `int` on a non-numeric string). -/
def convRejects : Value → ConvOutcome :=
  fun v => ConvOutcome.valueError ("invalid literal for int() with base 10: " ++ pyRepr v)

/-- A buggy converter that raises an unexpected exception. -/
def convCrashes : Value → ConvOutcome :=
  fun _ => ConvOutcome.otherExc "TypeError: 'int' object is not callable"

/-- A capability result with a "no matching package" message whose failure
is signalled only through a non-zero return code, not a `failed` flag. -/
def rcOnlyResult : ModuleResult :=
  { msg := some "No package matching 'docker' found"
    failed := Option.none
    rc := some 1
    changed := Option.none }

/-- A diamond class hierarchy: classes 1 and 2 specialize class 0, and
class 3 specializes both 1 and 2. -/
def diamondRegistry : List ClassDef := [⟨1, [0]⟩, ⟨2, [0]⟩, ⟨3, [1, 2]⟩]

/-- The `dirname` iterates of the path `"//var/lib/foo"`: a set closed
under `dirnameS` and disjoint from the sentinel targets, witnessing that
the mount-point walk never exits on it. -/
def stuckPaths : List String := ["//var/lib/foo", "//var/lib", "//var", "//"]

/-- C1: for every configuration tree and key path absent from it (a key
missing at any level, or an intermediate value that is not a dict),
`get_var` with no default raises the `OpenShiftCheckException` whose
message names the full dotted path; with a default it instead applies the
convert stage to the default — returning it unchanged when no convert was
given — and never raises the missing-variable failure. -/
theorem get_var_absent_path (task_vars : Value) (keys : List String)
    (h : lookupPath task_vars (effectiveKeys keys) = Option.none) :
    (∀ convert, get_var task_vars keys Option.none convert =
      Except.error (PyError.checkExc "OpenShiftCheckException"
        (configMissingMsg (dotted (effectiveKeys keys))))) ∧
    (∀ d convert, get_var task_vars keys (some d) convert =
      applyConvert (dotted (effectiveKeys keys)) d convert) ∧
    (∀ d, get_var task_vars keys (some d) Convert.none = Except.ok d) := by
  refine ⟨fun convert => ?_, fun d convert => ?_, fun d => ?_⟩ <;>
    simp [get_var, h, applyConvert]

/-- Witness for `get_var_absent_path` at the empty tree and path "a.b". -/
theorem get_var_absent_path_witness :
    get_var (Value.dict []) ["a", "b"] Option.none Convert.none =
      Except.error (PyError.checkExc "OpenShiftCheckException"
        (configMissingMsg (dotted (effectiveKeys ["a", "b"])))) :=
  (get_var_absent_path (Value.dict []) ["a", "b"] rfl).1 Convert.none

/-- C2: a value found (or defaulted) by `get_var` with `convert=bool` is
interpreted by the explicit ansible truthy/falsy rule, not language
truthiness: the strings "yes"/"true"/"on"/"1" in any letter case map to
true, "no"/"false"/"off"/"0" map to false, and native booleans are
returned unchanged. -/
theorem get_var_bool_conversion (task_vars : Value) (keys : List String)
    (d : Option Value) (v : Value)
    (h : lookupPath task_vars (effectiveKeys keys) = some v ∨
         (lookupPath task_vars (effectiveKeys keys) = Option.none ∧ d = some v)) :
    get_var task_vars keys d Convert.bool = Except.ok (ansible_to_bool v) ∧
    (∀ b, ansible_to_bool (Value.bool b) = Value.bool b) ∧
    (∀ s, lowerStr s ∈ ["yes", "true", "on", "1"] →
      ansible_to_bool (Value.str s) = Value.bool true) ∧
    (∀ s, lowerStr s ∈ ["no", "false", "off", "0"] →
      ansible_to_bool (Value.str s) = Value.bool false) := by
  refine ⟨?_, fun b => rfl, fun s hs => ?_, fun s hs => ?_⟩
  · rcases h with h | ⟨h, rfl⟩ <;> simp [get_var, h, applyConvert]
  · simp only [List.mem_cons, List.not_mem_nil, or_false] at hs
    rcases hs with h | h | h | h <;> simp [ansible_to_bool, h]
  · simp only [List.mem_cons, List.not_mem_nil, or_false] at hs
    rcases hs with h | h | h | h <;> simp [ansible_to_bool, h]

/-- Witness for `get_var_bool_conversion`: the inventory string "Yes"
resolves to boolean true. -/
theorem get_var_bool_conversion_witness :
    get_var (Value.dict [("flag", Value.str "Yes")]) ["flag"] Option.none Convert.bool =
      Except.ok (Value.bool true) :=
  ((get_var_bool_conversion (Value.dict [("flag", Value.str "Yes")]) ["flag"]
      Option.none (Value.str "Yes") (Or.inl rfl)).1).trans rfl

/-- C10: `get_var` splits its key argument on "." only when called with
exactly one positional key; with two or more keys each key is used
verbatim, so a top-level key containing a dot is reachable only through
the multi-key calling form, while a single dotted key always denotes a
nested path (and its missing-path failure names the dotted join). -/
theorem get_var_key_splitting :
    (∀ ks : List String, 2 ≤ ks.length → effectiveKeys ks = ks) ∧
    (∀ k : String, effectiveKeys [k] = pySplit k) ∧
    get_var (Value.dict [("a.b", Value.str "v")]) ["a.b"] Option.none Convert.none =
      Except.error (PyError.checkExc "OpenShiftCheckException" (configMissingMsg "a.b")) ∧
    get_var (Value.dict [("c", Value.dict [("a.b", Value.str "v")])]) ["c", "a.b"]
      Option.none Convert.none = Except.ok (Value.str "v") := by
  refine ⟨fun ks h => ?_, fun k => rfl, rfl, rfl⟩
  match ks with
  | [] => simp at h
  | [k] => simp at h
  | a :: b :: t => rfl

/-- Witness for `get_var_key_splitting` on a two-key call. -/
theorem get_var_key_splitting_witness :
    effectiveKeys ["a", "b"] = ["a", "b"] :=
  get_var_key_splitting.1 ["a", "b"] (by decide)

/-- C3 counterexample: both converter failure classes reach the user with
the same machine-readable kind. A converter raising `ValueError` and a
converter raising an unexpected exception both surface as an
`OpenShiftCheckException` whose `name` is the default
"OpenShiftCheckException" (the single-argument raise), so the two classes
are not distinguished by kind — only their messages differ. -/
theorem converter_failures_same_kind_cex :
    errKind (get_var (Value.dict [("x", Value.str "oops")]) ["x"] Option.none
      (Convert.custom convRejects)) = some "OpenShiftCheckException" ∧
    errKind (get_var (Value.dict [("x", Value.str "oops")]) ["x"] Option.none
      (Convert.custom convCrashes)) = some "OpenShiftCheckException" ∧
    decide (errMsg (get_var (Value.dict [("x", Value.str "oops")]) ["x"] Option.none
        (Convert.custom convRejects)) =
      errMsg (get_var (Value.dict [("x", Value.str "oops")]) ["x"] Option.none
        (Convert.custom convCrashes))) = false :=
  ⟨rfl, rfl, rfl⟩

/-- C3 amended: a converter failing with `ValueError` is wrapped into an
`OpenShiftCheckException` naming the offending dotted path and original
value, and an unexpectedly failing converter into one whose message says
the check itself is at fault; the two classes carry the same kind
("OpenShiftCheckException") and are distinguishable only by their message
formats, which can never coincide. -/
theorem converter_failures_distinguished_by_message (task_vars : Value)
    (keys : List String) (v : Value) (f : Value → ConvOutcome) (e e' : String)
    (hv : lookupPath task_vars (effectiveKeys keys) = some v) :
    (f v = ConvOutcome.valueError e →
      get_var task_vars keys Option.none (Convert.custom f) =
        Except.error (PyError.checkExc "OpenShiftCheckException"
          (convertErrorMsg (dotted (effectiveKeys keys)) (pyStr v) e))) ∧
    (f v = ConvOutcome.otherExc e' →
      get_var task_vars keys Option.none (Convert.custom f) =
        Except.error (PyError.checkExc "OpenShiftCheckException"
          (converterBugMsg (dotted (effectiveKeys keys)) (pyStr v) e'))) ∧
    (∀ a b c a' b' c' : String,
      startsCannot (convertErrorMsg a b c) = true ∧
      startsCannot (converterBugMsg a' b' c') = false) := by
  refine ⟨fun h => ?_, fun h => ?_, fun a b c a' b' c' => ⟨rfl, rfl⟩⟩ <;>
    simp [get_var, hv, applyConvert, h]

/-- Witness for `converter_failures_distinguished_by_message` with the
rejecting converter on the value "5x". -/
theorem converter_failures_distinguished_by_message_witness :
    get_var (Value.dict [("x", Value.str "5x")]) ["x"] Option.none
        (Convert.custom convRejects) =
      Except.error (PyError.checkExc "OpenShiftCheckException"
        (convertErrorMsg (dotted (effectiveKeys ["x"])) (pyStr (Value.str "5x"))
          ("invalid literal for int() with base 10: " ++ pyRepr (Value.str "5x")))) :=
  (converter_failures_distinguished_by_message (Value.dict [("x", Value.str "5x")])
      ["x"] (Value.str "5x") convRejects
      ("invalid literal for int() with base 10: " ++ pyRepr (Value.str "5x")) ""
      rfl).1 rfl

/-- C4: `get_major_minor_version` strips one leading 'v' if present,
splits on '.', raises the invalid-version `OpenShiftCheckException` when
fewer than two components result, rewrites a first component "1" to "3"
(alias applied to the first component only), parses the first two
components as integers and ignores the rest; in particular "v3.11.0"
yields (3, 11), "1.5" yields (3, 5) and "3" fails. -/
theorem get_major_minor_version_spec :
    get_major_minor_version "v3.11.0" = Except.ok (3, 11) ∧
    get_major_minor_version "1.5" = Except.ok (3, 5) ∧
    get_major_minor_version "3" =
      Except.error (PyError.checkExc "OpenShiftCheckException"
        (invalidVersionMsg "3".data)) ∧
    (∀ cs : List Char, get_major_minor_version (String.mk ('v' :: cs)) =
      versionComponents cs (pySplitDot cs)) ∧
    (∀ (t c1 c2 : List Char) (r1 r2 : List (List Char)),
      versionComponents t (c1 :: c2 :: r1) = versionComponents t (c1 :: c2 :: r2)) ∧
    (∀ (t c2 : List Char) (r : List (List Char)),
      versionComponents t (['1'] :: c2 :: r) = versionComponents t (['3'] :: c2 :: r)) ∧
    get_major_minor_version "3.1" = Except.ok (3, 1) ∧
    (∀ (t : List Char) (comps : List (List Char)), comps.length < 2 →
      versionComponents t comps =
        Except.error (PyError.checkExc "OpenShiftCheckException" (invalidVersionMsg t))) := by
  refine ⟨rfl, rfl, rfl, fun cs => rfl, fun t c1 c2 r1 r2 => rfl,
    fun t c2 r => rfl, rfl, fun t comps h => ?_⟩
  match comps with
  | [] => rfl
  | [c] => rfl
  | c1 :: c2 :: r => exact absurd h (by simp)

/-- Witness for `get_major_minor_version_spec`: a single-component tag
fails with the invalid-version failure. -/
theorem get_major_minor_version_spec_witness :
    versionComponents "7".data (pySplitDot "7".data) =
      Except.error (PyError.checkExc "OpenShiftCheckException"
        (invalidVersionMsg "7".data)) :=
  get_major_minor_version_spec.2.2.2.2.2.2.2 "7".data (pySplitDot "7".data) (by decide)

/-- A successful exit of the mount-point walk is the first `dirname`
iterate of the starting path that lies in the target set. -/
theorem walk_some (targets : List String) :
    ∀ (fuel : Nat) (p m : String), walk targets fuel p = some m →
      m ∈ targets ∧ ∃ i : Nat, dirnameS^[i] p = m ∧
        ∀ j < i, dirnameS^[j] p ∉ targets := by
  intro fuel
  induction fuel with
  | zero =>
    intro p m h
    by_cases hp : p ∈ targets
    · simp only [walk, if_pos hp, Option.some.injEq] at h
      subst h
      exact ⟨hp, 0, rfl, fun j hj => absurd hj (Nat.not_lt_zero j)⟩
    · simp [walk, hp] at h
  | succ n ih =>
    intro p m h
    by_cases hp : p ∈ targets
    · simp only [walk, if_pos hp, Option.some.injEq] at h
      subst h
      exact ⟨hp, 0, rfl, fun j hj => absurd hj (Nat.not_lt_zero j)⟩
    · simp only [walk, if_neg hp] at h
      obtain ⟨hm, i, hi, hlt⟩ := ih (dirnameS p) m h
      refine ⟨hm, i + 1, ?_, ?_⟩
      · rw [Function.iterate_succ_apply]
        exact hi
      · intro j hj
        match j with
        | 0 => simpa using hp
        | k + 1 =>
          rw [Function.iterate_succ_apply]
          exact hlt k (Nat.lt_of_succ_lt_succ hj)

/-- C5 amended: when `find_ansible_mount` returns a record, that record's
mount point is the nearest `dirname`-ancestor of the path that is a
configured mount point (no nearer iterate is in the mount-target set);
when it raises, the raised failure is the `OpenShiftCheckException`
listing the known mount points sorted, and the walk stopped at a sentinel
("/" or "") that is not a configured mount point — which can happen even
for a well-formed, non-empty mounts table. -/
theorem find_ansible_mount_nearest_ancestor (mounts : List MountRecord) (path : String) :
    (∀ r : MountRecord, find_ansible_mount mounts path = some (Except.ok r) →
      r ∈ mounts ∧ ∃ i : Nat, dirnameS^[i] path = r.mount ∧
        ∀ j < i, dirnameS^[j] path ∉ mountTargets mounts) ∧
    (∀ e : PyError, find_ansible_mount mounts path = some (Except.error e) →
      e = PyError.checkExc "OpenShiftCheckException" (mountErrMsg path mounts) ∧
      ∃ i : Nat, (dirnameS^[i] path = "/" ∨ dirnameS^[i] path = "") ∧
        dirnameS^[i] path ∉ mounts.map (·.mount) ∧
        ∀ j < i, dirnameS^[j] path ∉ mountTargets mounts) := by
  constructor
  · intro r h
    unfold find_ansible_mount at h
    cases hw : walk (mountTargets mounts) (path.length + 1) path with
    | none => rw [hw] at h; cases h
    | some m =>
      rw [hw] at h
      have h2 : lookupMount mounts path m = Except.ok r := Option.some.inj h
      unfold lookupMount at h2
      cases hf : mounts.reverse.find? (fun x => x.mount == m) with
      | none => rw [hf] at h2; cases h2
      | some r0 =>
        rw [hf] at h2
        have hr : r0 = r := Except.ok.inj h2
        subst hr
        have hr0 : r0 ∈ mounts := List.mem_reverse.mp (List.mem_of_find?_eq_some hf)
        have hpb : (r0.mount == m) = true := by simpa using List.find?_some hf
        have hrm : r0.mount = m := eq_of_beq hpb
        obtain ⟨hmem, i, hi, hlt⟩ := walk_some (mountTargets mounts) _ _ _ hw
        exact ⟨hr0, i, by rw [hi, hrm], hlt⟩
  · intro e h
    unfold find_ansible_mount at h
    cases hw : walk (mountTargets mounts) (path.length + 1) path with
    | none => rw [hw] at h; cases h
    | some m =>
      rw [hw] at h
      have h2 : lookupMount mounts path m = Except.error e := Option.some.inj h
      unfold lookupMount at h2
      cases hf : mounts.reverse.find? (fun x => x.mount == m) with
      | some r0 => rw [hf] at h2; cases h2
      | none =>
        rw [hf] at h2
        have he : e = PyError.checkExc "OpenShiftCheckException" (mountErrMsg path mounts) :=
          (Except.error.inj h2).symm
        obtain ⟨hmem, i, hi, hlt⟩ := walk_some (mountTargets mounts) _ _ _ hw
        have hnk : m ∉ mounts.map (·.mount) := by
          intro hin
          obtain ⟨r1, hr1, hrm1⟩ := List.mem_map.mp hin
          exact List.find?_eq_none.mp hf r1 (List.mem_reverse.mpr hr1) (by simp [hrm1])
        have hsent : m = "/" ∨ m = "" := by
          unfold mountTargets at hmem
          rcases List.mem_append.mp hmem with hL | hR
          · exact absurd hL hnk
          · simpa using hR
        refine ⟨he, i, ?_, ?_, hlt⟩
        · rw [hi]; exact hsent
        · rw [hi]; exact hnk

/-- C5 counterexample: a well-formed, non-empty mounts table on which
resolution nevertheless fails — the only mount is "/var" and the path
"/home" walks to the sentinel "/", which is not a configured mount point,
so the `OpenShiftCheckException` is raised. -/
theorem find_ansible_mount_fails_nonempty_table_cex :
    ([⟨"/var", Value.int 1⟩] : List MountRecord).length = 1 ∧
    find_ansible_mount [⟨"/var", Value.int 1⟩] "/home" =
      some (Except.error (PyError.checkExc "OpenShiftCheckException"
        "Unable to determine mount point for path \"/home\".\nKnown mount points: \"/var\".")) :=
  ⟨rfl, rfl⟩

/-- Witness for `find_ansible_mount_nearest_ancestor`: with mounts at "/"
and "/var", resolving "/var/lib/foo" yields the "/var" record, a member of
the table. -/
theorem find_ansible_mount_nearest_ancestor_witness :
    (⟨"/var", Value.int 1⟩ : MountRecord) ∈
      [(⟨"/", Value.int 0⟩ : MountRecord), ⟨"/var", Value.int 1⟩] :=
  ((find_ansible_mount_nearest_ancestor [⟨"/", Value.int 0⟩, ⟨"/var", Value.int 1⟩]
      "/var/lib/foo").1 ⟨"/var", Value.int 1⟩ rfl).1

/-- The mount-point walk with the empty table never exits from any of the
`dirname` iterates of "//var/lib/foo", whatever the fuel: the set
`stuckPaths` is closed under `dirnameS` (in particular
`dirnameS "//" = "//"`) and disjoint from the sentinels. -/
theorem walk_stuck_aux :
    ∀ fuel : Nat, ∀ p ∈ stuckPaths, walk (mountTargets []) fuel p = Option.none := by
  intro fuel
  induction fuel with
  | zero =>
    intro p hp
    fin_cases hp <;> rfl
  | succ n ih =>
    intro p hp
    fin_cases hp
    · exact ih "//var/lib" (by decide)
    · exact ih "//var" (by decide)
    · exact ih "//" (by decide)
    · exact ih "//" (by decide)

/-- C6: the component-stripping loop of `find_ansible_mount` does not
terminate on every input, contrary to the spec and to the source comment
that the sentinels "/" and "" ensure the loop ends: `os.path.dirname`
fixes "//", so on the path "//var/lib/foo" the walk never reaches a
member of the target set for any fuel and the loop spins forever (the
embedded function reports divergence as `Option.none`). -/
theorem find_ansible_mount_walk_diverges :
    (∀ fuel : Nat, walk (mountTargets []) fuel "//var/lib/foo" = Option.none) ∧
    find_ansible_mount [] "//var/lib/foo" = Option.none ∧
    dirnameS "//" = "//" ∧
    ("/" ∈ mountTargets [] ∧ "" ∈ mountTargets []) :=
  ⟨fun fuel => walk_stuck_aux fuel "//var/lib/foo" (by decide), rfl, rfl,
    by decide, by decide⟩

/-- C7: a check constructed without the operation-execution capability
fails `execute_module` with a `NotImplementedError` (its own exception
class, a machine-distinguishable kind) whose message names the concrete
check class; a check constructed with the capability delegates to it,
binding the stored scratch directory (`tmp`) and configuration tree
(`task_vars or \x7b\x7d`) from construction. -/
theorem execute_module_capability (α : Type) (className : String)
    (task_vars tmp module_name module_args : Value)
    (f : Value → Value → Value → Value → α) :
    execute_module (mkOpenShiftCheck α className Option.none task_vars tmp)
        module_name module_args =
      Except.error (PyError.notImplementedError
        (className ++ " invoked execute_module without providing the method at initialization.")) ∧
    execute_module (mkOpenShiftCheck α className (some f) task_vars tmp)
        module_name module_args =
      Except.ok (f module_name module_args tmp
        (if pyTruthy task_vars then task_vars else Value.dict [])) ∧
    pyErrorClass (PyError.notImplementedError
      (className ++ " invoked execute_module without providing the method at initialization."))
      = "NotImplementedError" ∧
    pyErrorClass (PyError.checkExc "OpenShiftCheckException" "") = "OpenShiftCheckException" :=
  ⟨rfl, rfl, rfl, rfl⟩

/-- C8 counterexample: a capability result whose failure is signalled only
by a non-zero `rc` and whose message says "No package matching": the
returned failed flag is true, but the message is returned unrewritten —
not the user-actionable hint — because the rewrite branch only runs when
the `failed` flag itself is truthy. -/
theorem ensure_dependencies_rc_only_no_rewrite_cex :
    (ensure_dependencies_result ["docker"] rcOnlyResult).2.1 = true ∧
    (ensure_dependencies_result ["docker"] rcOnlyResult).1 =
      "No package matching 'docker' found" ∧
    decide ("No package matching".data <:+: "No package matching 'docker' found".data)
      = true :=
  ⟨rfl, rfl, rfl⟩

/-- C8 amended: in the result inspection of `ensure_dependencies` on a
non-atomic host, the returned failed flag is true exactly when the
result's `failed` flag is set or its `rc` is non-zero (`rc` defaulting to
0, `failed` to false) and `changed` is passed through; the
no-matching-package rewrite into the user-actionable hint applies only
when the `failed` flag itself is truthy — a failure detected solely
through a non-zero `rc` keeps its original message. -/
theorem ensure_dependencies_failed_flag (deps : List String) (r : ModuleResult) :
    (ensure_dependencies_result deps r).2.1 = (r.failed.getD false || r.rc.getD 0 != 0) ∧
    (ensure_dependencies_result deps r).2.2 = r.changed.getD false ∧
    (r.failed.getD false = false →
      (ensure_dependencies_result deps r).1 = r.msg.getD "") ∧
    (r.failed.getD false = true →
      (ensure_dependencies_result deps r).1 =
        "Unable to install required packages on this host:\n    " ++
          String.intercalate ",\n    " deps ++ "\n" ++
          (if decide ("No package matching".data <:+: (r.msg.getD "").data) = true then
            "Ensure that all required dependencies can be installed via `yum`.\n"
          else r.msg.getD "")) := by
  refine ⟨rfl, rfl, fun h => ?_, fun h => ?_⟩ <;>
    simp [ensure_dependencies_result, h]

/-- Witness for `ensure_dependencies_failed_flag`: an unfailed result's
message passes through unchanged. -/
theorem ensure_dependencies_failed_flag_witness :
    (ensure_dependencies_result ["docker"]
      ⟨some "hi", some false, some 0, some true⟩).1 = "hi" :=
  (ensure_dependencies_failed_flag ["docker"]
    ⟨some "hi", some false, some 0, some true⟩).2.2.1 rfl

/-- Counting occurrences distributes over `flatMap`. -/
theorem count_flatMap (x : Nat) (f : Nat → List Nat) :
    ∀ l : List Nat, (l.flatMap f).count x = (l.map (fun s => (f s).count x)).sum := by
  intro l
  induction l with
  | nil => rfl
  | cons a t ih => simp [List.flatMap_cons, List.count_append, ih]

/-- The multiplicity of a class in the `subclasses` walk equals the number
of inheritance paths leading to it, at every fuel. -/
theorem subsAux_count (g : List ClassDef) :
    ∀ (n c x : Nat), (subsAux g n c).count x = pathCountAux g n c x := by
  intro n
  induction n with
  | zero => intro c x; rfl
  | succ n ih =>
    intro c x
    have hpt : ∀ s : Nat, (s :: subsAux g n s).count x =
        (if s = x then 1 else 0) + pathCountAux g n s x := by
      intro s
      rw [List.count_cons, ih]
      by_cases h : s = x <;> simp [h, Nat.add_comm]
    have hfg : (fun s => ((fun s => s :: subsAux g n s) s).count x) =
        (fun s => (if s = x then 1 else 0) + pathCountAux g n s x) := funext hpt
    show ((directSubs g c).flatMap (fun s => s :: subsAux g n s)).count x = _
    rw [count_flatMap, hfg]
    rfl

/-- Everything the `subclasses` walk yields is a transitive
specialization. -/
theorem subsAux_sound (g : List ClassDef) :
    ∀ (n c x : Nat), x ∈ subsAux g n c → TransSub g c x := by
  intro n
  induction n with
  | zero => intro c x h; simp [subsAux] at h
  | succ n ih =>
    intro c x h
    obtain ⟨s, hs, hx⟩ := List.mem_flatMap.mp h
    rcases List.mem_cons.mp hx with rfl | hx2
    · exact TransSub.direct c x hs
    · exact TransSub.step c s x hs (ih s x hx2)

/-- Every member of a list of naturals is bounded by its `foldr max 0`. -/
theorem mem_le_foldr_max : ∀ (l : List Nat), ∀ x ∈ l, x ≤ l.foldr max 0 := by
  intro l
  induction l with
  | nil => intro x hx; simp at hx
  | cons a t ih =>
    intro x hx
    rcases List.mem_cons.mp hx with rfl | hx2
    · exact Nat.le_max_left _ _
    · exact Nat.le_trans (ih x hx2) (Nat.le_max_right _ _)

/-- In a bases-first registry, a direct subclass has a strictly larger id
than its base and is bounded by the registry's largest id. -/
theorem directSub_lt (g : List ClassDef) (hg : BasesBelow g) (c s : Nat)
    (hs : s ∈ directSubs g c) : c < s ∧ s ≤ maxId g := by
  obtain ⟨d, hd, rfl⟩ := List.mem_map.mp hs
  have hdg : d ∈ g := (List.mem_filter.mp hd).1
  have hc : c ∈ d.bases := by
    have := (List.mem_filter.mp hd).2
    simpa using this
  refine ⟨hg d hdg c hc, ?_⟩
  exact mem_le_foldr_max (g.map (·.id)) d.id (List.mem_map.mpr ⟨d, hdg, rfl⟩)

/-- With enough fuel, the walk yields every transitive specialization. -/
theorem subsAux_complete (g : List ClassDef) (hg : BasesBelow g) (c x : Nat)
    (h : TransSub g c x) : ∀ n : Nat, maxId g + 1 - c ≤ n → x ∈ subsAux g n c := by
  induction h with
  | direct c s hs =>
    intro n hn
    obtain ⟨hc, hsm⟩ := directSub_lt g hg c s hs
    obtain ⟨m, rfl⟩ : ∃ m, n = m + 1 := ⟨n - 1, by omega⟩
    exact List.mem_flatMap.mpr ⟨s, hs, List.mem_cons_self s _⟩
  | step c s x hs ht ih =>
    intro n hn
    obtain ⟨hc, hsm⟩ := directSub_lt g hg c s hs
    obtain ⟨m, rfl⟩ : ∃ m, n = m + 1 := ⟨n - 1, by omega⟩
    exact List.mem_flatMap.mpr ⟨s, hs, List.mem_cons.mpr
      (Or.inr (ih m (by omega)))⟩

/-- C9 amended: over any bases-first class registry, `subclasses()` yields
exactly the transitive specializations of a type, and it yields each one
once per inheritance path from that type (so exactly once precisely when a
single path exists — multiple inheritance inside the hierarchy duplicates
the entry, as the diamond counterexample shows). -/
theorem subclasses_transitive_once_per_path (g : List ClassDef)
    (hg : BasesBelow g) (c x : Nat) :
    (x ∈ subclasses g c ↔ TransSub g c x) ∧
    (subclasses g c).count x = pathCount g c x :=
  ⟨⟨fun h => subsAux_sound g _ c x h,
    fun h => subsAux_complete g hg c x h _ (by omega)⟩,
   subsAux_count g _ c x⟩

/-- Witness for `subclasses_transitive_once_per_path` on a linear
hierarchy 0 ← 1 ← 2. -/
theorem subclasses_transitive_once_per_path_witness :
    (subclasses [⟨1, [0]⟩, ⟨2, [1]⟩] 0).count 2 =
      pathCount [⟨1, [0]⟩, ⟨2, [1]⟩] 0 2 :=
  (subclasses_transitive_once_per_path [⟨1, [0]⟩, ⟨2, [1]⟩]
    (by unfold BasesBelow; decide) 0 2).2

/-- C9 counterexample: in the diamond hierarchy (1 and 2 specialize 0,
3 specializes both 1 and 2), `subclasses()` of 0 yields the transitive
specialization 3 twice — once per inheritance path — not exactly once. -/
theorem subclasses_diamond_counted_twice_cex :
    subclasses diamondRegistry 0 = [1, 3, 2, 3] ∧
    (subclasses diamondRegistry 0).count 3 = 2 ∧
    pathCount diamondRegistry 0 3 = 2 :=
  ⟨rfl, rfl, rfl⟩
